import Mathlib

/-!
Verification development for the brachistochrone / interstellar travel
calculators repository.  The numeric formulas and the constrained field
solver of the relativistic rocket calculator are embedded shallowly over
the reals (JavaScript `number` arithmetic is modelled by `ℝ`, with Lean's
`x / 0 = 0` convention standing in for IEEE division; an auxiliary
NaN-tracking model is used where non-finite propagation itself is the
property of interest).  Empty string values (`""`) are modelled by
`Option.none`.
-/

noncomputable section

open Classical

namespace Rocket

/-- `SPEED_OF_LIGHT` constant of the rocket calculator (m/s). -/
def SPEED_OF_LIGHT : ℝ := 299792458

/-- `SPEED_OF_LIGHT_SQUARED` constant of the rocket calculator.  The source
hardcodes the literal `89875517873681760` (the IEEE-double rounding of
`299792458²`), which differs from the exact square `89875517873681764` by 4. -/
def SPEED_OF_LIGHT_SQUARED : ℝ := 89875517873681760

/-- `ASTRONOMICAL_UNIT` constant (m). -/
def ASTRONOMICAL_UNIT : ℝ := 149598000000

/-- `LIGHT_MINUTE` constant (m). -/
def LIGHT_MINUTE : ℝ := 17987547480

/-- `LIGHT_YEAR` constant (m). -/
def LIGHT_YEAR : ℝ := 9460730472580800

/-- `PARSEC` constant (m). -/
def PARSEC : ℝ := 30856780000000000

/-- Helper for hyperbolic cosine inverse:
`acosh = (arg) => Math.log(arg + Math.sqrt(arg * arg - 1))`. -/
def acosh (arg : ℝ) : ℝ := Real.log (arg + Real.sqrt (arg * arg - 1))

/-- `calcVelocity(parameters)`: velocity after elapsed observer time,
mirrored about the midpoint of the journey.  Parameters `acceleration`,
`observer_time`, `observer_time_elapsed` are passed positionally. -/
def calcVelocity (acceleration observer_time observer_time_elapsed : ℝ) : ℝ :=
  let observedTimeElapsed :=
    if observer_time_elapsed > observer_time / 2 then
      observer_time - observer_time_elapsed
    else observer_time_elapsed
  let observedTimeProportion := observedTimeElapsed / observer_time
  let timeProportionSq := 1 / (observedTimeProportion * observedTimeProportion)
  let k := SPEED_OF_LIGHT_SQUARED / acceleration
  let denominator :=
    acceleration * observer_time * observer_time / timeProportionSq
  let second_sqrt_term := k / denominator
  let sqrt_term := 1 + second_sqrt_term
  SPEED_OF_LIGHT / Real.sqrt sqrt_term

/-- `calcMaxVelocity(parameters)`: `calcVelocity` at
`observer_time_elapsed = observer_time / 2`. -/
def calcMaxVelocity (acceleration observer_time : ℝ) : ℝ :=
  calcVelocity acceleration observer_time (observer_time / 2)

/-- Inner helper `calcDist(observerTime, velocity)` of `calcDistance`. -/
def calcDist (observerTime velocity : ℝ) : ℝ :=
  let numerator := SPEED_OF_LIGHT * velocity * observerTime
  let lorentz := Real.sqrt (SPEED_OF_LIGHT_SQUARED - velocity * velocity)
  numerator / (SPEED_OF_LIGHT + lorentz)

/-- `calcDistance(parameters)`. -/
def calcDistance (acceleration observer_time observer_time_elapsed : ℝ) : ℝ :=
  if observer_time_elapsed > observer_time / 2 then
    let totalDistance :=
      calcDist observer_time (calcMaxVelocity acceleration observer_time)
    let elapsed := observer_time - observer_time_elapsed
    let velocity := calcVelocity acceleration observer_time elapsed
    let subtractDistance := calcDist elapsed velocity
    totalDistance - subtractDistance
  else
    calcDist observer_time_elapsed
      (calcVelocity acceleration observer_time observer_time_elapsed)

/-- `calcTotalDistance(parameters)`: `calcDistance` at
`observer_time_elapsed = observer_time`. -/
def calcTotalDistance (acceleration observer_time : ℝ) : ℝ :=
  calcDistance acceleration observer_time observer_time

/-- `calcObserverTime(parameters)`. -/
def calcObserverTime (acceleration distance : ℝ) : ℝ :=
  let k := SPEED_OF_LIGHT_SQUARED / acceleration
  let k_over_a := k / acceleration
  let sqrt_term_operand := distance / (2 * k) + 1
  let sqrt_term_operand2 := sqrt_term_operand * sqrt_term_operand
  let sqrt_term := k_over_a * (sqrt_term_operand2 - 1)
  2 * Real.sqrt sqrt_term

/-- `calcTotalTravelerTime(parameters)`. -/
def calcTotalTravelerTime (acceleration distance : ℝ) : ℝ :=
  let k := SPEED_OF_LIGHT_SQUARED / acceleration
  let acosh_result := acosh (distance / (2 * k) + 1)
  2 * SPEED_OF_LIGHT / acceleration * acosh_result

/-- `calcTravelerTime(parameters)`. -/
def calcTravelerTime (observer_time_elapsed velocity : ℝ) : ℝ :=
  observer_time_elapsed *
    Real.sqrt (1 - velocity * velocity / SPEED_OF_LIGHT_SQUARED)

/-- `calcEnergy(parameters)`. -/
def calcEnergy (max_velocity spacecraft_mass : ℝ) : ℝ :=
  let vel_over_c_sq := max_velocity * max_velocity / SPEED_OF_LIGHT_SQUARED
  let sqrt_term := 1 - vel_over_c_sq
  let denominator := Real.sqrt sqrt_term
  let energy_per_kg := 2 * SPEED_OF_LIGHT_SQUARED * (1 / denominator - 1)
  spacecraft_mass * energy_per_kg

/-- `calcFuelConversionRate(parameters)`. -/
def calcFuelConversionRate (max_velocity spacecraft_mass fuel_mass : ℝ) : ℝ :=
  let vel_to_c := max_velocity / SPEED_OF_LIGHT
  let per_kg_100percent := 2 * vel_to_c / (1 - vel_to_c)
  let perfect_efficient := per_kg_100percent * spacecraft_mass
  perfect_efficient / fuel_mass

/-- `calcFuelMass(parameters)`. -/
def calcFuelMass (max_velocity spacecraft_mass fuel_conversion_rate : ℝ) : ℝ :=
  let vel_to_c := max_velocity / SPEED_OF_LIGHT
  let per_kg_100percent := 2 * vel_to_c / (1 - vel_to_c)
  per_kg_100percent * spacecraft_mass / fuel_conversion_rate

/-- `calcMinObserverLength(parameters)`. -/
def calcMinObserverLength (max_velocity traveler_length : ℝ) : ℝ :=
  let velocity_sq := max_velocity * max_velocity
  traveler_length * Real.sqrt (1 - velocity_sq / SPEED_OF_LIGHT_SQUARED)

/-- `calcObserverLength(parameters)`. -/
def calcObserverLength (velocity traveler_length : ℝ) : ℝ :=
  let velocity_sq := velocity * velocity
  traveler_length * Real.sqrt (1 - velocity_sq / SPEED_OF_LIGHT_SQUARED)

/-- `calcTravelerLength(parameters)`. -/
def calcTravelerLength (max_velocity observer_length : ℝ) : ℝ :=
  let velocity_sq := max_velocity * max_velocity
  observer_length / Real.sqrt (1 - velocity_sq / SPEED_OF_LIGHT_SQUARED)

end Rocket

namespace Brach

/-- `calculateBrachistochroneTime(distanceKm, accelerationKms2)` of the
classical brachistochrone calculator. -/
def calculateBrachistochroneTime (distanceKm accelerationKms2 : ℝ) : ℝ :=
  2 * Real.sqrt (distanceKm / accelerationKms2)

/-- `calculateMaxVelocity(timeSeconds, accelerationKms2)`. -/
def calculateMaxVelocity (timeSeconds accelerationKms2 : ℝ) : ℝ :=
  accelerationKms2 * (timeSeconds / 2)

/-- `calculateTotalDeltav(maxVelocity)`. -/
def calculateTotalDeltav (maxVelocity : ℝ) : ℝ :=
  2 * maxVelocity

end Brach

namespace DeltavLog

/-- `getMaxVelocity(dv)` of the delta-v calculator variant with the
logarithmic acceleration factor. -/
def getMaxVelocity (dv : ℝ) : ℝ := dv / 2

/-- `calculateTravelTime(distanceKm, dv)` of the delta-v calculator variant
that scales acceleration by `1 + 0.1 * log10(dv / 1000)`. -/
def calculateTravelTime (distanceKm dv : ℝ) : ℝ :=
  let maxVelocity := getMaxVelocity dv
  let baseAcceleration : ℝ := 0.0014
  let scaleFactor := dv / 72000
  let acceleration :=
    baseAcceleration * scaleFactor * (1 + 0.1 * Real.logb 10 (dv / 1000))
  let accelerationTime := maxVelocity / acceleration
  let accelerationDistance := 0.5 * acceleration * accelerationTime ^ 2
  if accelerationDistance > distanceKm / 2 then
    2 * Real.sqrt (distanceKm / (2 * acceleration))
  else
    let coastingDistance := distanceKm - 2 * accelerationDistance
    let coastingTime := coastingDistance / maxVelocity
    coastingTime + 2 * accelerationTime

end DeltavLog

namespace DeltavPlain

/-- `getMaxVelocity(dv)` of the delta-v calculator variant without the
logarithmic factor. -/
def getMaxVelocity (dv : ℝ) : ℝ := dv / 2

/-- `calculateTravelTime(distanceKm, dv)` of the delta-v calculator variant
without the logarithmic acceleration factor. -/
def calculateTravelTime (distanceKm dv : ℝ) : ℝ :=
  let maxVelocity := getMaxVelocity dv
  let baseAcceleration : ℝ := 0.0014
  let scaleFactor := dv / 72000
  let acceleration := baseAcceleration * scaleFactor
  let accelerationTime := maxVelocity / acceleration
  let accelerationDistance := 0.5 * acceleration * accelerationTime ^ 2
  if accelerationDistance > distanceKm / 2 then
    2 * Real.sqrt (distanceKm / (2 * acceleration))
  else
    let coastingDistance := distanceKm - 2 * accelerationDistance
    let coastingTime := coastingDistance / maxVelocity
    coastingTime + 2 * accelerationTime

end DeltavPlain

/-! ### Helper lemmas -/

/-- Rational interval bounds for a square root. -/
theorem sqrt_mem (x l u : ℝ) (hl : 0 ≤ l) (hu : 0 ≤ u) (h1 : l ^ 2 ≤ x)
    (h2 : x ≤ u ^ 2) : l ≤ Real.sqrt x ∧ Real.sqrt x ≤ u := by
  constructor
  · have h := Real.sqrt_le_sqrt h1
    rwa [Real.sqrt_sq hl] at h
  · have h := Real.sqrt_le_sqrt h2
    rwa [Real.sqrt_sq hu] at h

/-! ### Claims about the pure formula library -/

/-- C7: classical brachistochrone: for every `d > 0` and `a > 0`,
`calculateBrachistochroneTime d a = 2·√(d/a)`; `calculateMaxVelocity` at that
time gives `a·(T/2)`; `calculateTotalDeltav` doubles the peak velocity; and
the round-trip identity `d = 2·(½·a·(T/2)²)` holds. -/
theorem C7_classical_brachistochrone (d a : ℝ) (hd : 0 < d) (ha : 0 < a) :
    Brach.calculateBrachistochroneTime d a = 2 * Real.sqrt (d / a) ∧
    Brach.calculateMaxVelocity (Brach.calculateBrachistochroneTime d a) a =
      a * (Brach.calculateBrachistochroneTime d a / 2) ∧
    Brach.calculateTotalDeltav
        (Brach.calculateMaxVelocity (Brach.calculateBrachistochroneTime d a) a) =
      2 * Brach.calculateMaxVelocity (Brach.calculateBrachistochroneTime d a) a ∧
    d = 2 * (1 / 2 * a * (Brach.calculateBrachistochroneTime d a / 2) ^ 2) := by
  refine ⟨rfl, rfl, rfl, ?_⟩
  have h1 : Brach.calculateBrachistochroneTime d a / 2 = Real.sqrt (d / a) := by
    unfold Brach.calculateBrachistochroneTime
    ring
  rw [h1, Real.sq_sqrt (by positivity)]
  field_simp
  ring

/-- Witness for C7 at `d = 1`, `a = 1`. -/
theorem C7_classical_brachistochrone_witness :
    (1 : ℝ) = 2 * (1 / 2 * 1 * (Brach.calculateBrachistochroneTime 1 1 / 2) ^ 2) :=
  (C7_classical_brachistochrone 1 1 (by norm_num) (by norm_num)).2.2.2

/-- C8: fuel inverse round trip: for `0 < v < c`, `m > 0`, `r > 0`,
`calcFuelConversionRate` applied to the fuel mass produced by `calcFuelMass`
returns the original conversion rate exactly (over the reals). -/
theorem C8_fuel_roundtrip (v m r : ℝ) (hv0 : 0 < v)
    (hvc : v < Rocket.SPEED_OF_LIGHT) (hm : 0 < m) (hr : 0 < r) :
    Rocket.calcFuelConversionRate v m (Rocket.calcFuelMass v m r) = r := by
  have hc : (0 : ℝ) < Rocket.SPEED_OF_LIGHT := by
    unfold Rocket.SPEED_OF_LIGHT; norm_num
  have h1 : 0 < v / Rocket.SPEED_OF_LIGHT := div_pos hv0 hc
  have h2 : 0 < 1 - v / Rocket.SPEED_OF_LIGHT := by
    have := (div_lt_one hc).mpr hvc
    linarith
  have hX : (0 : ℝ) <
      2 * (v / Rocket.SPEED_OF_LIGHT) / (1 - v / Rocket.SPEED_OF_LIGHT) * m :=
    mul_pos (div_pos (by linarith) h2) hm
  simp only [Rocket.calcFuelConversionRate, Rocket.calcFuelMass]
  rw [div_div_eq_mul_div, mul_div_cancel_left₀ _ hX.ne']

/-- Witness for C8 at `v = c/2 = 149896229`, `m = 2`, `r = 1/2`. -/
theorem C8_fuel_roundtrip_witness :
    Rocket.calcFuelConversionRate 149896229 2
      (Rocket.calcFuelMass 149896229 2 (1 / 2)) = 1 / 2 :=
  C8_fuel_roundtrip 149896229 2 (1 / 2) (by norm_num)
    (by unfold Rocket.SPEED_OF_LIGHT; norm_num) (by norm_num) (by norm_num)

/-- C4 fails as stated: at `a = 2`, `T = 2`, `t = 1` (so `p = 1/2`),
`calcVelocity` does not equal `c / √(1 + c²/(a·T²·p²))`; the code divides by
`a²·T²·p²`, not `a·T²·p²`. -/
theorem C4_counterexample :
    Rocket.calcVelocity 2 2 1 ≠
      Rocket.SPEED_OF_LIGHT /
        Real.sqrt (1 + Rocket.SPEED_OF_LIGHT_SQUARED /
          (2 * 2 ^ 2 * (1 / 2 : ℝ) ^ 2)) := by
  have hL : Rocket.calcVelocity 2 2 1 =
      Rocket.SPEED_OF_LIGHT /
        Real.sqrt (1 + Rocket.SPEED_OF_LIGHT_SQUARED / 4) := by
    simp only [Rocket.calcVelocity]
    norm_num [div_div]
  rw [hL]
  have harg : (2 : ℝ) * 2 ^ 2 * (1 / 2 : ℝ) ^ 2 = 2 := by norm_num
  rw [harg]
  have hC2 : (0 : ℝ) < Rocket.SPEED_OF_LIGHT_SQUARED := by
    unfold Rocket.SPEED_OF_LIGHT_SQUARED; norm_num
  have hlt : Real.sqrt (1 + Rocket.SPEED_OF_LIGHT_SQUARED / 4) <
      Real.sqrt (1 + Rocket.SPEED_OF_LIGHT_SQUARED / 2) := by
    apply Real.sqrt_lt_sqrt (by positivity)
    linarith
  have hpos : 0 < Real.sqrt (1 + Rocket.SPEED_OF_LIGHT_SQUARED / 4) := by
    apply Real.sqrt_pos.mpr
    positivity
  have hc : (0 : ℝ) < Rocket.SPEED_OF_LIGHT := by
    unfold Rocket.SPEED_OF_LIGHT; norm_num
  exact ne_of_gt (div_lt_div_of_pos_left hc hpos hlt)

/-- C4 amended: the denominator carries `a²` (not `a`): for `a > 0`, `T > 0`,
`0 < t ≤ T`, `calcVelocity` returns `c / √(1 + c²/(a²·T²·p²))` with
`p = t/T` for `t ≤ T/2` and `p = 1 − t/T` otherwise (`c²` being the source's
`SPEED_OF_LIGHT_SQUARED` literal). -/
theorem C4_amended (a T t : ℝ) (ha : 0 < a) (hT : 0 < T) (ht0 : 0 < t)
    (htT : t ≤ T) :
    Rocket.calcVelocity a T t =
      Rocket.SPEED_OF_LIGHT /
        Real.sqrt (1 + Rocket.SPEED_OF_LIGHT_SQUARED /
          (a ^ 2 * T ^ 2 * (if t ≤ T / 2 then t / T else 1 - t / T) ^ 2)) := by
  have key : ∀ p : ℝ,
      Rocket.SPEED_OF_LIGHT_SQUARED / a / (a * T * T / (1 / (p * p))) =
        Rocket.SPEED_OF_LIGHT_SQUARED / (a ^ 2 * T ^ 2 * p ^ 2) := by
    intro p
    rw [one_div, div_inv_eq_mul]
    ring
  simp only [Rocket.calcVelocity]
  split_ifs with h1 h2
  · linarith
  · have hp : (T - t) / T = 1 - t / T := by
      field_simp
    rw [hp, key (1 - t / T)]
  · rw [key (t / T)]
  · push_neg at h1
    linarith

/-- Witness for C4 amended at `a = 2`, `T = 4`, `t = 1`. -/
theorem C4_amended_witness :
    Rocket.calcVelocity 2 4 1 =
      Rocket.SPEED_OF_LIGHT /
        Real.sqrt (1 + Rocket.SPEED_OF_LIGHT_SQUARED /
          (2 ^ 2 * 4 ^ 2 *
            (if (1 : ℝ) ≤ 4 / 2 then 1 / 4 else 1 - 1 / 4) ^ 2)) :=
  C4_amended 2 4 1 (by norm_num) (by norm_num) (by norm_num) (by norm_num)

/-- C9: the two `calculateTravelTime` implementations (with and without the
`1 + 0.1·log10(dv/1000)` acceleration factor) diverge: at `distanceKm = 1000`
and `dv = 10000 ≠ 1000` they return different total travel times. -/
theorem C9_divergent_travel_time :
    (10000 : ℝ) ≠ 1000 ∧
    DeltavLog.calculateTravelTime 1000 10000 ≠
      DeltavPlain.calculateTravelTime 1000 10000 := by
  refine ⟨by norm_num, ?_⟩
  have hlog : Real.logb 10 ((10000 : ℝ) / 1000) = 1 := by
    rw [show ((10000 : ℝ) / 1000) = 10 by norm_num]
    simp [Real.logb_self_eq_one]
  have hL : DeltavLog.calculateTravelTime 1000 10000 =
      2 * Real.sqrt (1000 / (2 * (77 / 360000))) := by
    simp only [DeltavLog.calculateTravelTime, DeltavLog.getMaxVelocity, hlog]
    norm_num
  have hP : DeltavPlain.calculateTravelTime 1000 10000 =
      2 * Real.sqrt (1000 / (2 * (7 / 36000))) := by
    simp only [DeltavPlain.calculateTravelTime, DeltavPlain.getMaxVelocity]
    norm_num
  rw [hL, hP]
  have h1 : (1000 : ℝ) / (2 * (77 / 360000)) < 1000 / (2 * (7 / 36000)) := by
    norm_num
  have h2 := Real.sqrt_lt_sqrt (by positivity) h1
  intro h
  linarith

namespace C5aux

/-- The exact rational value of `1 + (C2/a)/(a·T·T/4)` at `a = 9.8`,
`T = 315576000` (10 years in seconds). -/
def S : ℝ := 5168726005448837 / 4981485343212000

/-- The exact rational value of `C2 − 299792458²/S`. -/
def A2 : ℝ := 16828351485546833220432914145120 / 5168726005448837

lemma maxVel_eval :
    Rocket.calcMaxVelocity 9.8 (10 * 31557600) = 299792458 / Real.sqrt S := by
  simp only [Rocket.calcMaxVelocity, Rocket.calcVelocity, Rocket.SPEED_OF_LIGHT,
    Rocket.SPEED_OF_LIGHT_SQUARED, S]
  norm_num

lemma v_sq :
    299792458 / Real.sqrt S * (299792458 / Real.sqrt S) =
      89875517873681764 / S := by
  rw [div_mul_div_comm, Real.mul_self_sqrt (by norm_num [S])]
  norm_num

lemma dist_eval :
    Rocket.calcTotalDistance 9.8 (10 * 31557600) =
      89875517873681764 * 315576000 /
        (Real.sqrt S * (299792458 + Real.sqrt A2)) := by
  have hbranch : ((10 : ℝ) * 31557600) > 10 * 31557600 / 2 := by norm_num
  have hv0 : Rocket.calcVelocity 9.8 (10 * 31557600)
      (10 * 31557600 - 10 * 31557600) = 299792458 := by
    simp only [Rocket.calcVelocity, Rocket.SPEED_OF_LIGHT,
      Rocket.SPEED_OF_LIGHT_SQUARED]
    norm_num [Real.sqrt_one]
  have hsub : Rocket.calcDist (10 * 31557600 - 10 * 31557600) 299792458 = 0 := by
    simp only [Rocket.calcDist]
    norm_num
  simp only [Rocket.calcTotalDistance, Rocket.calcDistance]
  rw [if_pos hbranch, hv0, hsub, sub_zero, maxVel_eval]
  simp only [Rocket.calcDist, Rocket.SPEED_OF_LIGHT, Rocket.SPEED_OF_LIGHT_SQUARED]
  rw [v_sq]
  have hA2 : (89875517873681760 : ℝ) - 89875517873681764 / S = A2 := by
    norm_num [S, A2]
  rw [hA2]
  have hnum : (299792458 : ℝ) * (299792458 / Real.sqrt S) * (10 * 31557600) =
      89875517873681764 * 315576000 / Real.sqrt S := by
    ring
  rw [hnum, div_div]

end C5aux

/-- C5: round trip of distance and observer time: with `a = 9.8 m/s²` and
`T = 10 years = 10·31557600 s`, `calcMaxVelocity` satisfies `0 < v/c < 1`
strictly, and `calcObserverTime` applied to `calcTotalDistance` returns the
original `T` within `1e-6` relative error. -/
theorem C5_relativistic_roundtrip :
    (0 < Rocket.calcMaxVelocity 9.8 (10 * 31557600) / Rocket.SPEED_OF_LIGHT ∧
      Rocket.calcMaxVelocity 9.8 (10 * 31557600) / Rocket.SPEED_OF_LIGHT < 1) ∧
    |Rocket.calcObserverTime 9.8
        (Rocket.calcTotalDistance 9.8 (10 * 31557600)) - 10 * 31557600| ≤
      1 / 1000000 * (10 * 31557600) := by
  obtain ⟨hs1, hs2⟩ := sqrt_mem C5aux.S 1.0186203000 1.0186203001
    (by norm_num) (by norm_num) (by norm_num [C5aux.S]) (by norm_num [C5aux.S])
  obtain ⟨hl1, hl2⟩ := sqrt_mem C5aux.A2 57059640.58 57059640.59
    (by norm_num) (by norm_num) (by norm_num [C5aux.A2]) (by norm_num [C5aux.A2])
  have hspos : 0 < Real.sqrt C5aux.S := lt_of_lt_of_le (by norm_num) hs1
  have hlpos : 0 < Real.sqrt C5aux.A2 := lt_of_lt_of_le (by norm_num) hl1
  constructor
  · rw [C5aux.maxVel_eval]
    simp only [Rocket.SPEED_OF_LIGHT]
    constructor
    · positivity
    · rw [div_lt_one (by norm_num)]
      exact div_lt_self (by norm_num) (lt_of_lt_of_le (by norm_num) hs1)
  · rw [C5aux.dist_eval]
    set s := Real.sqrt C5aux.S with hsdef
    set l := Real.sqrt C5aux.A2 with hldef
    have hden_pos : 0 < s * (299792458 + l) := mul_pos hspos (by linarith)
    set d := (89875517873681764 : ℝ) * 315576000 / (s * (299792458 + l))
      with hddef
    have hd_lo : (78026978690000000 : ℝ) ≤ d := by
      have hden_ub : s * (299792458 + l) ≤
          1.0186203001 * (299792458 + 57059640.59) :=
        mul_le_mul hs2 (by linarith) (by linarith) (by norm_num)
      calc (78026978690000000 : ℝ) ≤
          89875517873681764 * 315576000 /
            (1.0186203001 * (299792458 + 57059640.59)) := by norm_num
        _ ≤ d := by
            rw [hddef]
            gcongr
    have hd_hi : d ≤ 78026978720000000 := by
      have hden_lb : (1.0186203000 : ℝ) * (299792458 + 57059640.58) ≤
          s * (299792458 + l) :=
        mul_le_mul hs1 (by linarith) (by norm_num) (by linarith)
      calc d ≤ 89875517873681764 * 315576000 /
            (1.0186203000 * (299792458 + 57059640.58)) := by
            rw [hddef]
            gcongr
        _ ≤ 78026978720000000 := by norm_num
    simp only [Rocket.calcObserverTime, Rocket.SPEED_OF_LIGHT_SQUARED]
    have hy_lo : (4.2540193884 : ℝ) ≤ d / (2 * (89875517873681760 / 9.8)) := by
      calc (4.2540193884 : ℝ) ≤
          78026978690000000 / (2 * (89875517873681760 / 9.8)) := by norm_num
        _ ≤ d / (2 * (89875517873681760 / 9.8)) := by gcongr
    have hy_hi : d / (2 * (89875517873681760 / 9.8)) ≤ 4.2540193901 := by
      calc d / (2 * (89875517873681760 / 9.8)) ≤
          78026978720000000 / (2 * (89875517873681760 / 9.8)) := by gcongr
        _ ≤ 4.2540193901 := by norm_num
    set y := d / (2 * (89875517873681760 / 9.8)) with hydef
    have hk2 : (89875517873681760 : ℝ) / 9.8 / 9.8 =
        2246887946842044000 / 2401 := by norm_num
    rw [hk2]
    have hy0 : (0 : ℝ) ≤ y := le_trans (by norm_num) hy_lo
    have hysq_lo : (4.2540193884 : ℝ) * 4.2540193884 ≤ y * y :=
      mul_le_mul hy_lo hy_lo (by norm_num) hy0
    have hysq_hi : y * y ≤ (4.2540193901 : ℝ) * 4.2540193901 :=
      mul_le_mul hy_hi hy_hi hy0 (by norm_num)
    have hst_lo : (24897052930000000 : ℝ) ≤
        2246887946842044000 / 2401 * ((y + 1) * (y + 1) - 1) := by
      nlinarith [hy_lo, hysq_lo]
    have hst_hi : 2246887946842044000 / 2401 * ((y + 1) * (y + 1) - 1) ≤
        24897052960000000 := by
      nlinarith [hy_hi, hysq_hi]
    obtain ⟨hr1, hr2⟩ := sqrt_mem
      (2246887946842044000 / 2401 * ((y + 1) * (y + 1) - 1))
      157787999 157788001 (by norm_num) (by norm_num)
      (le_trans (by norm_num) hst_lo) (le_trans hst_hi (by norm_num))
    rw [abs_le]
    constructor
    · linarith
    · linarith

namespace NanModel

/-- JavaScript numbers with non-finite propagation: `none` models the
non-finite junk (`NaN`, `±Infinity`) that unguarded `Math.sqrt`/`Math.log`/
division produce on domain violations.  None of the source's formula
functions contains a `throw`; this model records that out-of-domain
arguments flow into non-finite values rather than raising an error. -/
def Flt : Type := Option ℝ

/-- Addition with non-finite propagation. -/
def fadd : Flt → Flt → Flt
  | some a, some b => some (a + b)
  | _, _ => none

/-- Subtraction with non-finite propagation. -/
def fsub : Flt → Flt → Flt
  | some a, some b => some (a - b)
  | _, _ => none

/-- Multiplication with non-finite propagation. -/
def fmul : Flt → Flt → Flt
  | some a, some b => some (a * b)
  | _, _ => none

/-- Division: a zero divisor yields a non-finite value (`±Infinity`/`NaN`
in JavaScript), as does any non-finite operand. -/
def fdiv : Flt → Flt → Flt
  | some a, some b => if b = 0 then none else some (a / b)
  | _, _ => none

/-- `Math.sqrt`: negative argument yields `NaN`. -/
def fsqrt : Flt → Flt
  | some a => if a < 0 then none else some (Real.sqrt a)
  | none => none

/-- `Math.log`: non-positive argument yields `NaN`/`-Infinity`. -/
def flog : Flt → Flt
  | some a => if a ≤ 0 then none else some (Real.log a)
  | none => none

/-- `acosh = (arg) => Math.log(arg + Math.sqrt(arg * arg - 1))` under the
non-finite-tracking model. -/
def acosh (arg : Flt) : Flt :=
  flog (fadd arg (fsqrt (fsub (fmul arg arg) (some 1))))

/-- `calcTravelerLength(parameters)` under the non-finite-tracking model. -/
def calcTravelerLength (max_velocity observer_length : Flt) : Flt :=
  let velocity_sq := fmul max_velocity max_velocity
  fdiv observer_length
    (fsqrt (fsub (some 1)
      (fdiv velocity_sq (some Rocket.SPEED_OF_LIGHT_SQUARED))))

end NanModel

/-- C6 fails as stated: the formula functions contain no domain guards and
no throw.  At `x = 1/2 < 1`, `acosh` evaluates `log(1/2 + sqrt(-3/4))`,
producing `NaN` (modelled `none`) silently instead of signalling a
`DomainError`; likewise `calcTravelerLength` at `v = 2c ≥ c` silently
produces `NaN`. -/
theorem C6_counterexample :
    NanModel.acosh (some (1 / 2)) = none ∧
    NanModel.calcTravelerLength (some (2 * 299792458)) (some 100) = none := by
  constructor
  · simp only [NanModel.acosh, NanModel.fmul, NanModel.fsub, NanModel.fsqrt]
    rw [if_pos (by norm_num : (1 / 2 : ℝ) * (1 / 2) - 1 < 0)]
    rfl
  · simp only [NanModel.calcTravelerLength, NanModel.fmul, NanModel.fdiv,
      NanModel.fsub, NanModel.fsqrt]
    rw [if_neg (by norm_num [Rocket.SPEED_OF_LIGHT_SQUARED] :
      ¬ Rocket.SPEED_OF_LIGHT_SQUARED = 0)]
    have h1 : (1 : ℝ) - 2 * 299792458 * (2 * 299792458) /
        Rocket.SPEED_OF_LIGHT_SQUARED < 0 := by
      rw [sub_neg, lt_div_iff (by norm_num [Rocket.SPEED_OF_LIGHT_SQUARED])]
      norm_num [Rocket.SPEED_OF_LIGHT_SQUARED]
    simp only [NanModel.fsub, NanModel.fsqrt]
    rw [if_pos h1]

/-- C6 amended: on domain violations the formula functions return non-finite
values (NaN) silently rather than signalling a DomainError: `acosh` for any
argument `x < 1` produces `NaN`, and `calcTravelerLength` for any velocity
`≥ c` produces `NaN`, with no exception mechanism involved. -/
theorem C6_amended :
    (∀ x : ℝ, x < 1 → NanModel.acosh (some x) = none) ∧
    (∀ L v : ℝ, Rocket.SPEED_OF_LIGHT ≤ v →
      NanModel.calcTravelerLength (some v) (some L) = none) := by
  constructor
  · intro x hx
    simp only [NanModel.acosh, NanModel.fmul, NanModel.fsub, NanModel.fsqrt]
    by_cases h : x * x - 1 < 0
    · rw [if_pos h]
      rfl
    · rw [if_neg h]
      have hneg : x ≤ -1 := by nlinarith
      have h1 : Real.sqrt (x * x - 1) ≤ -x := by
        have h2 : Real.sqrt (x * x - 1) ≤ Real.sqrt (x ^ 2) :=
          Real.sqrt_le_sqrt (by nlinarith)
        rw [Real.sqrt_sq_eq_abs, abs_of_nonpos (by linarith)] at h2
        exact h2
      simp only [NanModel.fadd, NanModel.flog]
      rw [if_pos (by linarith : x + Real.sqrt (x * x - 1) ≤ 0)]
  · intro L v hv
    have hv' : (299792458 : ℝ) ≤ v := by
      simpa [Rocket.SPEED_OF_LIGHT] using hv
    simp only [NanModel.calcTravelerLength, NanModel.fmul, NanModel.fdiv,
      NanModel.fsub, NanModel.fsqrt]
    rw [if_neg (by norm_num [Rocket.SPEED_OF_LIGHT_SQUARED] :
      ¬ Rocket.SPEED_OF_LIGHT_SQUARED = 0)]
    have h1 : (1 : ℝ) - v * v / Rocket.SPEED_OF_LIGHT_SQUARED < 0 := by
      rw [sub_neg, lt_div_iff (by norm_num [Rocket.SPEED_OF_LIGHT_SQUARED])]
      have : (89875517873681764 : ℝ) ≤ v * v := by nlinarith
      simp only [Rocket.SPEED_OF_LIGHT_SQUARED]
      linarith
    simp only [NanModel.fsub, NanModel.fsqrt]
    rw [if_pos h1]

/-- Witness for C6 amended at `x = 0` and `v = c`, `L = 7`. -/
theorem C6_amended_witness :
    NanModel.acosh (some 0) = none ∧
    NanModel.calcTravelerLength (some Rocket.SPEED_OF_LIGHT) (some 7) = none :=
  ⟨C6_amended.1 0 (by norm_num),
   C6_amended.2 7 Rocket.SPEED_OF_LIGHT le_rfl⟩

namespace Solver

/-- Parameter map handed to a field's `calc` function: the satisfied
dependency values keyed by field name (`CalculationParameters`). -/
abbrev Params : Type := List (String × ℝ)

/-- `parameters[name]`; `none` models JavaScript `undefined`. -/
def pget : Params → String → Option ℝ
  | [], _ => none
  | (n, v) :: rest, name => if n = name then some v else pget rest name

/-- Numeric value of a parameter.  An absent parameter defaults to `0` here
(JavaScript arithmetic on `undefined` gives `NaN`); the runs verified below
only evaluate `calc` bodies whose used parameters are present. -/
def pval (ps : Params) (name : String) : ℝ := (pget ps name).getD 0

/-- JavaScript truthiness of `parameters[name]`: defined and non-zero. -/
def truthy (ps : Params) (name : String) : Prop :=
  match pget ps name with
  | some v => v ≠ 0
  | none => False

/-- The informational message `calcAcceleration` installs via
`setErrorMessage` on every invocation. -/
def newtonMessage : String :=
  "The acceleration is calculated using Newtonian equations and is inaccurate when velocity approaches speed of light. It is better to input the acceleration yourself."

/-- A `calc` function takes the parameter map and returns the computed value
together with the message it installs via `setErrorMessage` during the call
(`none` for the formulas that do not touch the error message). -/
abbrev CalcFun : Type := Params → ℝ × Option String

/-- `calcAcceleration(parameters)`: sets the Newtonian warning, then picks
one of three reduced forms by JavaScript truthiness of the parameters. -/
def calcAccelerationP : CalcFun := fun ps =>
  (if truthy ps "distance" ∧ truthy ps "observer_time" then
    let distance := pval ps "distance" / 2
    let time := pval ps "observer_time" / 2
    2 * distance / (time * time)
  else if truthy ps "distance" ∧ truthy ps "max_velocity" then
    pval ps "max_velocity" * pval ps "max_velocity" / pval ps "distance"
  else
    2 * pval ps "max_velocity" / pval ps "observer_time",
  some newtonMessage)

/-- `calcTotalDistance` as a registry `calc` function. -/
def calcTotalDistanceP : CalcFun := fun ps =>
  (Rocket.calcTotalDistance (pval ps "acceleration") (pval ps "observer_time"),
   none)

/-- `calcMaxVelocity` as a registry `calc` function. -/
def calcMaxVelocityP : CalcFun := fun ps =>
  (Rocket.calcMaxVelocity (pval ps "acceleration") (pval ps "observer_time"),
   none)

/-- `calcObserverTime` as a registry `calc` function. -/
def calcObserverTimeP : CalcFun := fun ps =>
  (Rocket.calcObserverTime (pval ps "acceleration") (pval ps "distance"), none)

/-- `calcTotalTravelerTime` as a registry `calc` function. -/
def calcTotalTravelerTimeP : CalcFun := fun ps =>
  (Rocket.calcTotalTravelerTime (pval ps "acceleration") (pval ps "distance"),
   none)

/-- `calcFuelMass` as a registry `calc` function. -/
def calcFuelMassP : CalcFun := fun ps =>
  (Rocket.calcFuelMass (pval ps "max_velocity") (pval ps "spacecraft_mass")
    (pval ps "fuel_conversion_rate"), none)

/-- `calcFuelConversionRate` as a registry `calc` function. -/
def calcFuelConversionRateP : CalcFun := fun ps =>
  (Rocket.calcFuelConversionRate (pval ps "max_velocity")
    (pval ps "spacecraft_mass") (pval ps "fuel_mass"), none)

/-- `calcTravelerLength` as a registry `calc` function. -/
def calcTravelerLengthP : CalcFun := fun ps =>
  (Rocket.calcTravelerLength (pval ps "max_velocity")
    (pval ps "observer_length"), none)

/-- `calcMinObserverLength` as a registry `calc` function. -/
def calcMinObserverLengthP : CalcFun := fun ps =>
  (Rocket.calcMinObserverLength (pval ps "max_velocity")
    (pval ps "traveler_length"), none)

/-- Per-field state (`FieldState` in the source).  `calcFn` is the source's
`calc` attribute (`calc` is a Lean keyword).  `displayValue` holds the parsed
user input (`none` for an empty/unparseable string), `unit` the multiplier of
the currently selected unit, `value` the base-unit value (`none` for `""`). -/
structure FieldState where
  calcFn : Option CalcFun
  parameters : Option (List String)
  primary : Bool
  max_missing : Option ℕ
  min_val : Option ℝ
  max_val : Option ℝ
  min_error : Option String
  max_error : Option String
  unit : ℝ
  displayValue : Option ℝ
  value : Option ℝ
  changed : Bool
  set : Bool

/-- The session field map, in registry insertion order. -/
abbrev Fields : Type := List (String × FieldState)

/-- Key lookup (first occurrence), mirroring JavaScript object access. -/
def lookupField : Fields → String → Option FieldState
  | [], _ => none
  | (n, f) :: rest, name =>
    if n = name then some f else lookupField rest name

/-- Key update (first occurrence), mirroring JavaScript object mutation. -/
def setField : Fields → String → FieldState → Fields
  | [], _, _ => []
  | (n, f) :: rest, name, f' =>
    if n = name then (n, f') :: rest else (n, f) :: setField rest name f'

/-- One field's step of `processInput`: clear `set`, convert `displayValue`
to a base-unit `value`, then check the declared `max_val`/`min_val` bounds,
producing the field's configured error message on a violation (a bound
without a configured message does not raise). -/
def ingestField (f : FieldState) : FieldState × Option String :=
  let f1 : FieldState := { f with set := false }
  match f1.displayValue with
  | none => ({ f1 with value := none }, none)
  | some d =>
    let v := d * f1.unit
    let f2 := { f1 with value := some v }
    let maxErr : Option String :=
      match f2.max_val, f2.max_error with
      | some m, some e => if v > m then some e else none
      | _, _ => none
    match maxErr with
    | some e => (f2, some e)
    | none =>
      let minErr : Option String :=
        match f2.min_val, f2.min_error with
        | some m, some e => if v < m then some e else none
        | _, _ => none
      (f2, minErr)

/-- The ingest pass over all fields, stopping at the first violation
(the source's `throw`). -/
def processInputGo : Fields → Except String Fields
  | [] => Except.ok []
  | (n, f) :: rest =>
    match ingestField f with
    | (_, some e) => Except.error e
    | (f2, none) =>
      match processInputGo rest with
      | Except.ok rest2 => Except.ok ((n, f2) :: rest2)
      | Except.error e => Except.error e

/-- `processInput()`: runs the ingest pass on a copy; on a violation the
thrown error is caught, recorded as the error message, and the ORIGINAL
field map is returned unchanged (every mutation so far was on copies).
On success the error message is cleared to `""`. -/
def processInput (fields : Fields) : Fields × String :=
  match processInputGo fields with
  | Except.ok fs => (fs, "")
  | Except.error e => (fields, e)

/-- Parameter gathering: a dependency is satisfied when its value is
non-empty and it is `changed`, `primary`, or already `set` in this pass;
anything else (including an unknown name) counts as missing. -/
def gatherParams (flds : Fields) : List String → Params × ℕ
  | [] => ([], 0)
  | p :: rest =>
    let r := gatherParams flds rest
    match lookupField flds p with
    | none => (r.1, r.2 + 1)
    | some pf =>
      match pf.value with
      | some v =>
        if pf.changed || pf.primary || pf.set then ((p, v) :: r.1, r.2)
        else (r.1, r.2 + 1)
      | none => (r.1, r.2 + 1)

/-- Handling of one field inside a sweep of `calculateValues`'s `do…while`
loop: skip if already `set` or lacking a `calc` function; otherwise, if the
field is empty or is an untouched secondary field, gather parameters and,
when few enough are missing, compute: mark `set`, store the value and its
display form, flag the sweep as changed, and install any message the `calc`
function emits. -/
def processField (flds : Fields) (msg : String) (name : String) :
    Fields × Bool × String :=
  match lookupField flds name with
  | none => (flds, false, msg)
  | some f =>
    if f.set then (flds, false, msg)
    else
      match f.calcFn with
      | none => (flds, false, msg)
      | some cf =>
        if f.value.isNone || (!f.changed && !f.primary) then
          match f.parameters with
          | none => (flds, false, msg)
          | some paramNames =>
            let r := gatherParams flds paramNames
            if (match f.max_missing with
                | some mm => r.2 ≤ mm
                | none => False) ∨ r.2 = 0 then
              let vm := cf r.1
              let f' : FieldState :=
                { f with
                  set := true
                  value := some vm.1
                  displayValue := some (vm.1 / f.unit) }
              (setField flds name f', true, vm.2.getD msg)
            else (flds, false, msg)
        else (flds, false, msg)

/-- One full sweep: iterate over the registry keys in insertion order,
threading the field map, the sweep's `changed` flag and the error message. -/
def sweepGo : List String → Fields → Bool → String → Fields × Bool × String
  | [], flds, changed, msg => (flds, changed, msg)
  | n :: rest, flds, changed, msg =>
    let r := processField flds msg n
    sweepGo rest r.1 (changed || r.2.1) r.2.2

/-- One iteration of the `do…while (changed)` body. -/
def sweep (flds : Fields) (msg : String) : Fields × Bool × String :=
  sweepGo (flds.map Prod.fst) flds false msg

/-- The `do…while (changed)` loop with explicit fuel.  Returns the final
fields and message, the number of sweeps performed, and whether the fixed
point (`changed = false`) was reached before the fuel ran out.  The
JavaScript loop is unbounded; the termination theorem below shows that fuel
`#fields + 1` always suffices. -/
def loopGo : ℕ → Fields → String → Fields × String × ℕ × Bool
  | 0, flds, msg => (flds, msg, 0, false)
  | Nat.succ n, flds, msg =>
    let r := sweep flds msg
    if r.2.1 then
      let r2 := loopGo n r.1 r.2.2
      (r2.1, r2.2.1, r2.2.2.1 + 1, r2.2.2.2)
    else (r.1, r.2.2, 1, true)

/-- `calculateValues()`: ingest, then run the derivation loop to its fixed
point. -/
def calculateValues (fields : Fields) : Fields × String :=
  let r0 := processInput fields
  let r := loopGo (r0.1.length + 1) r0.1 r0.2
  (r.1, r.2.1)

/-- Number of fields currently marked `set`. -/
def setCount (flds : Fields) : ℕ :=
  List.countP (fun nf => nf.2.set) flds

/-- Whether the field `name` is marked `set` in the map. -/
def fieldSet (flds : Fields) (name : String) : Bool :=
  match lookupField flds name with
  | some f => f.set
  | none => false

/-- Whether the field `name` holds a (non-empty) value in the map. -/
def fieldHasValue (flds : Fields) (name : String) : Bool :=
  match lookupField flds name with
  | some f => f.value.isSome
  | none => false

end Solver

namespace Solver

lemma length_setField (flds : Fields) (name : String) (f' : FieldState) :
    (setField flds name f').length = flds.length := by
  induction flds with
  | nil => rfl
  | cons hd tl ih =>
    obtain ⟨n, f⟩ := hd
    simp only [setField]
    split
    · rfl
    · simp [ih]

lemma map_fst_setField (flds : Fields) (name : String) (f' : FieldState) :
    (setField flds name f').map Prod.fst = flds.map Prod.fst := by
  induction flds with
  | nil => rfl
  | cons hd tl ih =>
    obtain ⟨n, f⟩ := hd
    simp only [setField]
    split
    · simp
    · simp [ih]

lemma lookupField_setField_ne {flds : Fields} {name other : String}
    (f' : FieldState) (h : name ≠ other) :
    lookupField (setField flds name f') other = lookupField flds other := by
  induction flds with
  | nil => rfl
  | cons hd tl ih =>
    obtain ⟨n, g⟩ := hd
    by_cases hn : n = name
    · subst hn
      simp [setField, lookupField, if_neg h, ih]
    · simp [setField, lookupField, hn, ih]

lemma setCount_setField {flds : Fields} {name : String} {f : FieldState}
    (h : lookupField flds name = some f) (hf : f.set = false)
    {f' : FieldState} (hf' : f'.set = true) :
    setCount (setField flds name f') = setCount flds + 1 := by
  induction flds with
  | nil => simp [lookupField] at h
  | cons hd tl ih =>
    obtain ⟨n, g⟩ := hd
    by_cases hn : n = name
    · simp only [lookupField, if_pos hn] at h
      injection h with h
      subst h
      simp [setField, if_pos hn, setCount, List.countP_cons, hf, hf']
    · simp only [lookupField, if_neg hn] at h
      have h2 := ih h
      simp only [setField, if_neg hn, setCount, List.countP_cons] at h2 ⊢
      omega

lemma setCount_le_length (flds : Fields) : setCount flds ≤ flds.length :=
  List.countP_le_length _

lemma processField_cases (flds : Fields) (msg : String) (name : String) :
    processField flds msg name = (flds, false, msg) ∨
    ∃ f f' m, lookupField flds name = some f ∧ f.set = false ∧
      f'.set = true ∧
      processField flds msg name = (setField flds name f', true, m) := by
  unfold processField
  rcases hlk : lookupField flds name with _ | f
  · left
    simp [hlk]
  · cases hset : f.set with
    | true => left; simp [hlk, hset]
    | false =>
      rcases hcf : f.calcFn with _ | cf
      · left
        simp [hlk, hset, hcf]
      · cases hcond : (f.value.isNone || (!f.changed && !f.primary)) with
        | false =>
          left
          simp [hlk, hset, hcf, hcond]
        | true =>
          rcases hpar : f.parameters with _ | paramNames
          · left
            simp [hlk, hset, hcf, hcond, hpar]
          · by_cases hc : ((match f.max_missing with
                | some mm => (gatherParams flds paramNames).2 ≤ mm
                | none => False) ∨ (gatherParams flds paramNames).2 = 0)
            · right
              refine ⟨f,
                { f with
                  set := true
                  value := some (cf (gatherParams flds paramNames).1).1
                  displayValue :=
                    some ((cf (gatherParams flds paramNames).1).1 / f.unit) },
                (cf (gatherParams flds paramNames).1).2.getD msg,
                rfl, hset, rfl, ?_⟩
              simp [hlk, hset, hcf, hcond, hpar, hc]
            · left
              simp [hlk, hset, hcf, hcond, hpar, hc]

end Solver

namespace Solver

lemma sweepGo_spec (names : List String) :
    ∀ (flds : Fields) (changed : Bool) (msg : String),
      (sweepGo names flds changed msg).1.length = flds.length ∧
      (sweepGo names flds changed msg).1.map Prod.fst = flds.map Prod.fst ∧
      setCount flds ≤ setCount (sweepGo names flds changed msg).1 ∧
      ((sweepGo names flds changed msg).2.1 = changed ∨
        ((sweepGo names flds changed msg).2.1 = true ∧
          setCount flds < setCount (sweepGo names flds changed msg).1)) ∧
      (∀ nm g, lookupField flds nm = some g → g.set = true →
        ∃ g', lookupField (sweepGo names flds changed msg).1 nm = some g' ∧
          g'.set = true) := by
  induction names with
  | nil =>
    intro flds changed msg
    exact ⟨rfl, rfl, le_refl _, Or.inl rfl, fun nm g h hg => ⟨g, h, hg⟩⟩
  | cons n rest ih =>
    intro flds changed msg
    rcases processField_cases flds msg n with hpc |
      ⟨f, f', m, hlk, hfset, hf'set, hpc⟩
    · simp only [sweepGo, hpc, Bool.or_false]
      exact ih flds changed msg
    · simp only [sweepGo, hpc, Bool.or_true]
      have hcnt : setCount (setField flds n f') = setCount flds + 1 :=
        setCount_setField hlk hfset hf'set
      have hlen := length_setField flds n f'
      have hmap := map_fst_setField flds n f'
      obtain ⟨ih1, ih2, ih3, ih4, ih5⟩ := ih (setField flds n f') true m
      refine ⟨by rw [ih1, hlen], by rw [ih2, hmap], ?_, ?_, ?_⟩
      · omega
      · right
        refine ⟨?_, by omega⟩
        rcases ih4 with h | h
        · exact h
        · exact h.1
      · intro nm g hg hgset
        by_cases hnm : n = nm
        · subst hnm
          rw [hlk] at hg
          injection hg with hg
          subst hg
          rw [hfset] at hgset
          exact absurd hgset (by simp)
        · refine ih5 nm g ?_ hgset
          rw [lookupField_setField_ne f' hnm]
          exact hg

lemma sweep_length (flds : Fields) (msg : String) :
    (sweep flds msg).1.length = flds.length :=
  (sweepGo_spec _ flds false msg).1

lemma sweep_setCount_le (flds : Fields) (msg : String) :
    setCount flds ≤ setCount (sweep flds msg).1 :=
  (sweepGo_spec _ flds false msg).2.2.1

lemma sweep_progress {flds : Fields} {msg : String}
    (h : (sweep flds msg).2.1 = true) :
    setCount flds < setCount (sweep flds msg).1 := by
  have hs := (sweepGo_spec (flds.map Prod.fst) flds false msg).2.2.2.1
  rw [show sweepGo (flds.map Prod.fst) flds false msg = sweep flds msg
    from rfl] at hs
  rcases hs with h1 | h1
  · rw [h] at h1
    exact absurd h1 (by simp)
  · exact h1.2

lemma sweep_set_preserved (flds : Fields) (msg : String) :
    ∀ nm g, lookupField flds nm = some g → g.set = true →
      ∃ g', lookupField (sweep flds msg).1 nm = some g' ∧ g'.set = true :=
  (sweepGo_spec _ flds false msg).2.2.2.2

lemma loopGo_ok : ∀ (fuel : ℕ) (flds : Fields) (msg : String),
    flds.length + 1 ≤ fuel + setCount flds →
    (loopGo fuel flds msg).2.2.2 = true ∧
    (loopGo fuel flds msg).2.2.1 ≤ fuel := by
  intro fuel
  induction fuel with
  | zero =>
    intro flds msg h
    have := setCount_le_length flds
    omega
  | succ n ih =>
    intro flds msg h
    simp only [loopGo]
    cases hch : (sweep flds msg).2.1 with
    | false =>
      simp only [hch, Bool.false_eq_true, if_false]
      exact ⟨trivial, by omega⟩
    | true =>
      simp only [hch, if_true]
      have hlt := sweep_progress hch
      have hlen := sweep_length flds msg
      have h2 : (sweep flds msg).1.length + 1 ≤
          n + setCount (sweep flds msg).1 := by
        rw [hlen]
        omega
      have hih := ih (sweep flds msg).1 (sweep flds msg).2.2 h2
      exact ⟨hih.1, by omega⟩

end Solver

/-- C3: for every field registry and every input state, the `do…while`
derivation loop of `calculateValues` terminates, performing at most
`#fields + 1` sweeps (fuel `#fields + 1` always reaches the fixed point,
with the sweep count bounded by it); each sweep that reports a change marks
at least one previously-unset field as `set`, and a sweep never clears a
`set` flag. -/
theorem C3_loop_terminates :
    (∀ (flds : Solver.Fields) (msg : String),
      (Solver.loopGo (flds.length + 1) flds msg).2.2.2 = true ∧
      (Solver.loopGo (flds.length + 1) flds msg).2.2.1 ≤ flds.length + 1) ∧
    (∀ (flds : Solver.Fields) (msg : String),
      (Solver.sweep flds msg).2.1 = true →
        Solver.setCount flds < Solver.setCount (Solver.sweep flds msg).1) ∧
    (∀ (flds : Solver.Fields) (msg nm : String) (g : Solver.FieldState),
      Solver.lookupField flds nm = some g → g.set = true →
        ∃ g', Solver.lookupField (Solver.sweep flds msg).1 nm = some g' ∧
          g'.set = true) :=
  ⟨fun flds msg => Solver.loopGo_ok (flds.length + 1) flds msg (by omega),
   fun _ _ h => Solver.sweep_progress h,
   fun flds msg nm g hg hs => Solver.sweep_set_preserved flds msg nm g hg hs⟩

namespace RocketRegistry

/-- A field state with every optional attribute absent. -/
def emptyField : Solver.FieldState :=
  { calcFn := none
    parameters := none
    primary := false
    max_missing := none
    min_val := none
    max_val := none
    min_error := none
    max_error := none
    unit := 1
    displayValue := none
    value := none
    changed := false
    set := false }

/-- The `distance` field definition, initialised with its default unit
(light-years) and default value `11.2`. -/
def distanceField : Solver.FieldState :=
  { emptyField with
    calcFn := some Solver.calcTotalDistanceP
    parameters := some ["observer_time", "acceleration"]
    primary := true
    min_val := some 100
    min_error :=
      some "This calculator is quite useless for such small distances. Try travel a bit further."
    unit := Rocket.LIGHT_YEAR
    displayValue := some 11.2
    value := some (11.2 * Rocket.LIGHT_YEAR) }

/-- The `acceleration` field definition (default `9.8 m/s²`). -/
def accelerationField : Solver.FieldState :=
  { emptyField with
    calcFn := some Solver.calcAccelerationP
    parameters := some ["distance", "observer_time", "max_velocity"]
    max_missing := some 1
    primary := true
    min_val := some 0.00000000000000001
    min_error := some "Distance too small."
    max_val := some (Rocket.SPEED_OF_LIGHT - 0.001)
    max_error := some "Is your spaceship on steroids? You can\x27t accelerate so quickly."
    unit := 1
    displayValue := some 9.8
    value := some (9.8 * 1) }

/-- The `max_velocity` field definition (default unit: speed of light). -/
def maxVelocityField : Solver.FieldState :=
  { emptyField with
    calcFn := some Solver.calcMaxVelocityP
    parameters := some ["acceleration", "observer_time"]
    min_val := some 0.000000000000001
    min_error := some "Your velocity is too small. At this rate you won\x27t get out your front door."
    max_val := some (Rocket.SPEED_OF_LIGHT - 0.001)
    max_error := some "You have been watching too much Star Trek. Velocity must be less than the speed of light."
    unit := Rocket.SPEED_OF_LIGHT }

/-- The `observer_time` field definition (default unit: years). -/
def observerTimeField : Solver.FieldState :=
  { emptyField with
    calcFn := some Solver.calcObserverTimeP
    parameters := some ["acceleration", "distance"]
    unit := 31557600 }

/-- The `traveler_time` field definition (default unit: years). -/
def travelerTimeField : Solver.FieldState :=
  { emptyField with
    calcFn := some Solver.calcTotalTravelerTimeP
    parameters := some ["acceleration", "distance"]
    unit := 31557600 }

/-- The `spacecraft_mass` field definition (no `calc`; default 25000 tons). -/
def spacecraftMassField : Solver.FieldState :=
  { emptyField with
    primary := true
    unit := 1000
    displayValue := some 25000
    value := some (25000 * 1000) }

/-- The `fuel_mass` field definition (default unit: tons). -/
def fuelMassField : Solver.FieldState :=
  { emptyField with
    calcFn := some Solver.calcFuelMassP
    parameters := some ["max_velocity", "spacecraft_mass", "fuel_conversion_rate"]
    unit := 1000 }

/-- The `fuel_conversion_rate` field definition (default `0.008`). -/
def fuelConversionRateField : Solver.FieldState :=
  { emptyField with
    calcFn := some Solver.calcFuelConversionRateP
    parameters := some ["max_velocity", "spacecraft_mass", "fuel_mass"]
    primary := true
    unit := 1
    displayValue := some 0.008
    value := some (0.008 * 1) }

/-- The `traveler_length` field definition (default `100` m). -/
def travelerLengthField : Solver.FieldState :=
  { emptyField with
    calcFn := some Solver.calcTravelerLengthP
    parameters := some ["observer_length", "max_velocity"]
    primary := true
    unit := 1
    displayValue := some 100
    value := some (100 * 1) }

/-- The `observer_length` field definition. -/
def observerLengthField : Solver.FieldState :=
  { emptyField with
    calcFn := some Solver.calcMinObserverLengthP
    parameters := some ["traveler_length", "max_velocity"]
    unit := 1 }

/-- The registry state for the C1 scenario: starting from the defaults, the
user typed `4` (light-years) into `distance`, `10` (years) into
`observer_time`, and blanked `acceleration` (each edit marks `changed`). -/
def C1fields : Solver.Fields :=
  [("distance",
    { distanceField with
      displayValue := some 4
      value := some (4 * Rocket.LIGHT_YEAR)
      changed := true }),
   ("acceleration",
    { accelerationField with
      displayValue := none
      value := none
      changed := true }),
   ("max_velocity", maxVelocityField),
   ("observer_time",
    { observerTimeField with
      displayValue := some 10
      value := some (10 * 31557600)
      changed := true }),
   ("traveler_time", travelerTimeField),
   ("spacecraft_mass", spacecraftMassField),
   ("fuel_mass", fuelMassField),
   ("fuel_conversion_rate", fuelConversionRateField),
   ("traveler_length", travelerLengthField),
   ("observer_length", observerLengthField)]

/-- The registry state for the C2 counterexample: starting from the
defaults (acceleration still holding its default `9.8`), the user selected
meters for `distance` and typed `50` (below the declared minimum of 100). -/
def C2fields : Solver.Fields :=
  [("distance",
    { distanceField with
      unit := 1
      displayValue := some 50
      value := some (50 * 1)
      changed := true }),
   ("acceleration", accelerationField),
   ("max_velocity", maxVelocityField),
   ("observer_time", observerTimeField),
   ("traveler_time", travelerTimeField),
   ("spacecraft_mass", spacecraftMassField),
   ("fuel_mass", fuelMassField),
   ("fuel_conversion_rate", fuelConversionRateField),
   ("traveler_length", travelerLengthField),
   ("observer_length", observerLengthField)]

/-- The registry state for the C2 amended scenario: as `C2fields`, but the
user additionally blanked `acceleration`, so no derivation is possible. -/
def C2fieldsB : Solver.Fields :=
  [("distance",
    { distanceField with
      unit := 1
      displayValue := some 50
      value := some (50 * 1)
      changed := true }),
   ("acceleration",
    { accelerationField with
      displayValue := none
      value := none
      changed := true }),
   ("max_velocity", maxVelocityField),
   ("observer_time", observerTimeField),
   ("traveler_time", travelerTimeField),
   ("spacecraft_mass", spacecraftMassField),
   ("fuel_mass", fuelMassField),
   ("fuel_conversion_rate", fuelConversionRateField),
   ("traveler_length", travelerLengthField),
   ("observer_length", observerLengthField)]

/-- One-field registry with a parameterless computable field (used to
exercise the sweep-progress property on a concrete input). -/
def progressField : Solver.FieldState :=
  { emptyField with
    calcFn := some (fun _ => (0, none))
    parameters := some [] }

/-- One-field registry holding an already-`set` field (used to exercise
`set`-flag preservation on a concrete input). -/
def presetField : Solver.FieldState :=
  { emptyField with set := true }

end RocketRegistry

/-- Witness for C3 at two concrete one-field registries: a sweep that
computes the single empty field strictly increases the `set` count, and a
sweep preserves an already-`set` field. -/
theorem C3_loop_terminates_witness :
    Solver.setCount [("a", RocketRegistry.progressField)] <
      Solver.setCount
        (Solver.sweep [("a", RocketRegistry.progressField)] "").1 ∧
    ∃ g', Solver.lookupField
        (Solver.sweep [("b", RocketRegistry.presetField)] "").1 "b" =
          some g' ∧ g'.set = true :=
  ⟨C3_loop_terminates.2.1 [("a", RocketRegistry.progressField)] ""
    (by simp [Solver.sweep, Solver.sweepGo, Solver.processField,
      Solver.lookupField, Solver.gatherParams, Solver.setField,
      RocketRegistry.progressField, RocketRegistry.emptyField]),
   C3_loop_terminates.2.2 [("b", RocketRegistry.presetField)] "" "b"
    RocketRegistry.presetField (by simp [Solver.lookupField]) rfl⟩

set_option maxHeartbeats 4000000 in
/-- C1 fails as stated: on the C1 scenario the solve does populate the
derived fields, but `calcAcceleration` installs its Newtonian-inaccuracy
message via `setErrorMessage`, so the solver's error message at the end of
the solve is that non-empty warning, not null/empty. -/
theorem C1_counterexample :
    (Solver.calculateValues RocketRegistry.C1fields).2 =
      Solver.newtonMessage ∧ Solver.newtonMessage ≠ "" := by
  have h1 : ¬((4 : ℝ) * Rocket.LIGHT_YEAR < 100) := by
    norm_num [Rocket.LIGHT_YEAR]
  refine ⟨?_, by decide⟩
  simp [Solver.calculateValues, Solver.processInput, Solver.processInputGo,
    Solver.ingestField, Solver.loopGo, Solver.sweep, Solver.sweepGo,
    Solver.processField, Solver.gatherParams, Solver.lookupField,
    Solver.setField, Solver.pget, Solver.pval,
    Solver.calcAccelerationP, Solver.calcTotalDistanceP,
    Solver.calcMaxVelocityP, Solver.calcObserverTimeP,
    Solver.calcTotalTravelerTimeP, Solver.calcFuelMassP,
    Solver.calcFuelConversionRateP, Solver.calcTravelerLengthP,
    Solver.calcMinObserverLengthP, Option.getD,
    RocketRegistry.C1fields, RocketRegistry.emptyField,
    RocketRegistry.distanceField, RocketRegistry.accelerationField,
    RocketRegistry.maxVelocityField, RocketRegistry.observerTimeField,
    RocketRegistry.travelerTimeField, RocketRegistry.spacecraftMassField,
    RocketRegistry.fuelMassField, RocketRegistry.fuelConversionRateField,
    RocketRegistry.travelerLengthField, RocketRegistry.observerLengthField,
    h1]

set_option maxHeartbeats 4000000 in
/-- C1 amended: on the C1 scenario (only `distance` and `observer_time`
entered, `acceleration` blanked), the solve populates `acceleration`,
`max_velocity` and `traveler_time` (each ends `set` with a value) without
any of them having been entered, and the solver's error message at the end
is exactly `calcAcceleration`'s Newtonian-inaccuracy warning (not empty). -/
theorem C1_amended :
    Solver.fieldSet (Solver.calculateValues RocketRegistry.C1fields).1
        "acceleration" = true ∧
    Solver.fieldHasValue (Solver.calculateValues RocketRegistry.C1fields).1
        "acceleration" = true ∧
    Solver.fieldSet (Solver.calculateValues RocketRegistry.C1fields).1
        "max_velocity" = true ∧
    Solver.fieldHasValue (Solver.calculateValues RocketRegistry.C1fields).1
        "max_velocity" = true ∧
    Solver.fieldSet (Solver.calculateValues RocketRegistry.C1fields).1
        "traveler_time" = true ∧
    Solver.fieldHasValue (Solver.calculateValues RocketRegistry.C1fields).1
        "traveler_time" = true ∧
    (Solver.calculateValues RocketRegistry.C1fields).2 =
      Solver.newtonMessage := by
  have h1 : ¬((4 : ℝ) * Rocket.LIGHT_YEAR < 100) := by
    norm_num [Rocket.LIGHT_YEAR]
  simp [Solver.calculateValues, Solver.processInput, Solver.processInputGo,
    Solver.ingestField, Solver.loopGo, Solver.sweep, Solver.sweepGo,
    Solver.processField, Solver.gatherParams, Solver.lookupField,
    Solver.setField, Solver.pget, Solver.pval, Solver.fieldSet,
    Solver.fieldHasValue, Solver.calcAccelerationP, Solver.calcTotalDistanceP,
    Solver.calcMaxVelocityP, Solver.calcObserverTimeP,
    Solver.calcTotalTravelerTimeP, Solver.calcFuelMassP,
    Solver.calcFuelConversionRateP, Solver.calcTravelerLengthP,
    Solver.calcMinObserverLengthP, Option.getD,
    RocketRegistry.C1fields, RocketRegistry.emptyField,
    RocketRegistry.distanceField, RocketRegistry.accelerationField,
    RocketRegistry.maxVelocityField, RocketRegistry.observerTimeField,
    RocketRegistry.travelerTimeField, RocketRegistry.spacecraftMassField,
    RocketRegistry.fuelMassField, RocketRegistry.fuelConversionRateField,
    RocketRegistry.travelerLengthField, RocketRegistry.observerLengthField,
    h1]

set_option maxHeartbeats 4000000 in
/-- C2 fails as stated: entering `distance = 50` meters (below the declared
minimum of 100) does surface the field's exact configured `min_error`
string, but the derivation loop still runs over the previous field state,
so compute functions ARE invoked: with the default `acceleration = 9.8`
still present, `observer_time` (a derivable field) ends the solve resolved
(`set = true`). -/
theorem C2_counterexample :
    (Solver.calculateValues RocketRegistry.C2fields).2 =
      "This calculator is quite useless for such small distances. Try travel a bit further." ∧
    Solver.fieldSet (Solver.calculateValues RocketRegistry.C2fields).1
      "observer_time" = true := by
  have h1 : ((50 : ℝ) < 100) := by norm_num
  simp [Solver.calculateValues, Solver.processInput, Solver.processInputGo,
    Solver.ingestField, Solver.loopGo, Solver.sweep, Solver.sweepGo,
    Solver.processField, Solver.gatherParams, Solver.lookupField,
    Solver.setField, Solver.pget, Solver.pval, Solver.fieldSet,
    Solver.calcAccelerationP, Solver.calcTotalDistanceP,
    Solver.calcMaxVelocityP, Solver.calcObserverTimeP,
    Solver.calcTotalTravelerTimeP, Solver.calcFuelMassP,
    Solver.calcFuelConversionRateP, Solver.calcTravelerLengthP,
    Solver.calcMinObserverLengthP, Option.getD,
    RocketRegistry.C2fields, RocketRegistry.emptyField,
    RocketRegistry.distanceField, RocketRegistry.accelerationField,
    RocketRegistry.maxVelocityField, RocketRegistry.observerTimeField,
    RocketRegistry.travelerTimeField, RocketRegistry.spacecraftMassField,
    RocketRegistry.fuelMassField, RocketRegistry.fuelConversionRateField,
    RocketRegistry.travelerLengthField, RocketRegistry.observerLengthField,
    h1]

set_option maxHeartbeats 4000000 in
/-- C2 amended: entering `distance` below its declared minimum yields the
field's exact configured `min_error` string, and — when no other derivable
inputs are present (here `acceleration` was blanked as well) — every field
with a compute function is left unresolved. -/
theorem C2_amended :
    (Solver.calculateValues RocketRegistry.C2fieldsB).2 =
      "This calculator is quite useless for such small distances. Try travel a bit further." ∧
    Solver.fieldSet (Solver.calculateValues RocketRegistry.C2fieldsB).1
      "distance" = false ∧
    Solver.fieldSet (Solver.calculateValues RocketRegistry.C2fieldsB).1
      "acceleration" = false ∧
    Solver.fieldSet (Solver.calculateValues RocketRegistry.C2fieldsB).1
      "max_velocity" = false ∧
    Solver.fieldSet (Solver.calculateValues RocketRegistry.C2fieldsB).1
      "observer_time" = false ∧
    Solver.fieldSet (Solver.calculateValues RocketRegistry.C2fieldsB).1
      "traveler_time" = false ∧
    Solver.fieldSet (Solver.calculateValues RocketRegistry.C2fieldsB).1
      "fuel_mass" = false ∧
    Solver.fieldSet (Solver.calculateValues RocketRegistry.C2fieldsB).1
      "fuel_conversion_rate" = false ∧
    Solver.fieldSet (Solver.calculateValues RocketRegistry.C2fieldsB).1
      "traveler_length" = false ∧
    Solver.fieldSet (Solver.calculateValues RocketRegistry.C2fieldsB).1
      "observer_length" = false := by
  have h1 : ((50 : ℝ) < 100) := by norm_num
  simp [Solver.calculateValues, Solver.processInput, Solver.processInputGo,
    Solver.ingestField, Solver.loopGo, Solver.sweep, Solver.sweepGo,
    Solver.processField, Solver.gatherParams, Solver.lookupField,
    Solver.setField, Solver.pget, Solver.pval, Solver.fieldSet,
    Solver.calcAccelerationP, Solver.calcTotalDistanceP,
    Solver.calcMaxVelocityP, Solver.calcObserverTimeP,
    Solver.calcTotalTravelerTimeP, Solver.calcFuelMassP,
    Solver.calcFuelConversionRateP, Solver.calcTravelerLengthP,
    Solver.calcMinObserverLengthP, Option.getD,
    RocketRegistry.C2fieldsB, RocketRegistry.emptyField,
    RocketRegistry.distanceField, RocketRegistry.accelerationField,
    RocketRegistry.maxVelocityField, RocketRegistry.observerTimeField,
    RocketRegistry.travelerTimeField, RocketRegistry.spacecraftMassField,
    RocketRegistry.fuelMassField, RocketRegistry.fuelConversionRateField,
    RocketRegistry.travelerLengthField, RocketRegistry.observerLengthField,
    h1]

/-- C10: ingest atomicity: whenever the ingest pass hits a bounds violation
(the thrown error), `processInput` catches it and returns the previous
fields map unchanged together with that error — all per-field mutations of
the pass were made on discarded copies, so no field's `value`, `changed` or
`set` flag visible to the caller is altered by a failed ingest. -/
theorem C10_ingest_atomicity (flds : Solver.Fields) (e : String)
    (h : Solver.processInputGo flds = Except.error e) :
    Solver.processInput flds = (flds, e) := by
  unfold Solver.processInput
  rw [h]

/-- Witness for C10 on the concrete `C2fieldsB` state, whose `distance`
entry violates its minimum: `processInput` returns the state unchanged with
the configured error. -/
theorem C10_ingest_atomicity_witness :
    Solver.processInput RocketRegistry.C2fieldsB =
      (RocketRegistry.C2fieldsB,
       "This calculator is quite useless for such small distances. Try travel a bit further.") :=
  C10_ingest_atomicity RocketRegistry.C2fieldsB _ (by
    have h1 : ((50 : ℝ) < 100) := by norm_num
    simp [Solver.processInputGo, Solver.ingestField,
      RocketRegistry.C2fieldsB, RocketRegistry.emptyField,
      RocketRegistry.distanceField, h1])
